import Mathlib

/-!
Shallow embedding of the follow-up-bot lead orchestrator
(`src/lib/leadOrchestrator.ts`, extended version with the quote branch)
and of the step-flow micro-orchestrator (`src/lib/projectConversation.ts`),
together with theorems settling the frozen claims about them.

Modelling conventions:
* TypeScript `string | null` / optional fields become `Option String`;
  `number | null` becomes `Option Int`; JavaScript truthiness of such a
  field is `none` or `some ""` / `some 0`.
* `Record<string, boolean>` maps that only ever receive `true` become the
  list of inserted keys in insertion order.
* JavaScript `String.prototype.trim` / the regex class `[.\s।,]` are
  modelled with `Char.isWhitespace`, which agrees with the JS whitespace
  class on all characters appearing in the program's word lists.
* `toLowerCase` is modelled per `Char`; it is the identity on the
  Devanagari / Gujarati / Kannada characters used by the program, exactly
  as in JS.
* The in-memory `Map` of per-chat step-flow states is modelled by passing
  the single chat's entry (`Option ProjectConversationState`) in and out.
-/

/-! ### JavaScript string primitives -/

def jsWhitespaceChar (c : Char) : Bool := c.isWhitespace

/-- The character class `[.\s।,]` used by the confirmation detectors. -/
def confirmStripChar (c : Char) : Bool :=
  c = '.' || jsWhitespaceChar c || c = '।' || c = ','

/-- `text.trim()` -/
def jsTrim (s : String) : String :=
  String.mk (((s.data.dropWhile jsWhitespaceChar).reverse.dropWhile jsWhitespaceChar).reverse)

/-- `raw.replace(/^[.\s।,]+|[.\s।,]+$/g, '')` -/
def stripEdges (s : String) : String :=
  String.mk (((s.data.dropWhile confirmStripChar).reverse.dropWhile confirmStripChar).reverse)

/-- `s.toLowerCase()`; ASCII case folding, the identity on the scripts used. -/
def jsToLower (s : String) : String := String.mk (s.data.map Char.toLower)

/-- `sub` occurs as a contiguous run inside `l`. -/
def listIsInfixOf (sub : List Char) : List Char → Bool
  | [] => sub.isEmpty
  | c :: tl => sub.isPrefixOf (c :: tl) || listIsInfixOf sub tl

/-- `s.includes(sub)` -/
def jsIncludes (s sub : String) : Bool := listIsInfixOf sub.data s.data

/-- `s.startsWith(p)` -/
def jsStartsWith (s p : String) : Bool := p.data.isPrefixOf s.data

/-- JS truthiness of a `string | null | undefined` value: falsy iff absent or empty. -/
def strFalsy : Option String → Bool
  | none => true
  | some s => s == ""

def strTruthy (o : Option String) : Bool := !(strFalsy o)

/-- JS truthiness of a `number | null | undefined` value: falsy iff absent or zero. -/
def numFalsy : Option Int → Bool
  | none => true
  | some n => n == 0

/-! ### Data model (`leadAnalysis.ts`, `leadIntent.ts`, orchestrator types) -/

inductive JobType
  | painting | plumbing | electrical | civil | unknown
deriving DecidableEq, Repr

def jobTypeStr : JobType → String
  | .painting => "painting"
  | .plumbing => "plumbing"
  | .electrical => "electrical"
  | .civil => "civil"
  | .unknown => "unknown"

inductive Urgency
  | today | tomorrow | this_week | next_week | flexible | unknown
deriving DecidableEq, Repr

def urgencyStr : Urgency → String
  | .today => "today"
  | .tomorrow => "tomorrow"
  | .this_week => "this_week"
  | .next_week => "next_week"
  | .flexible => "flexible"
  | .unknown => "unknown"

inductive PreferredLanguage
  | hi | en | mixed | unknown
deriving DecidableEq, Repr

structure CustomerInfo where
  name : Option String
  phone : Option String
deriving DecidableEq, Repr

structure ScopeHint where
  interior : Option Bool
  exterior : Option Bool
deriving DecidableEq, Repr

structure LeadAnalysis where
  contractor_id : Option String
  raw_utterance : String
  customer : CustomerInfo
  location_text : Option String
  job_type : JobType
  scope_hint : ScopeHint
  urgency : Urgency
  preferred_language : PreferredLanguage
deriving DecidableEq, Repr

inductive HighLevelIntent
  | GREETING | NEW_LEAD | GENERATE_QUOTE_OPTIONS | UPDATE_EXISTING_LEAD
  | LOG_MEASUREMENT | GENERAL_QUESTION | OTHER
deriving DecidableEq, Repr

structure LeadIntentResult where
  intent : HighLevelIntent
  lead_hint : Option String := none
  topic : Option String := none
deriving DecidableEq, Repr

inductive LeadStatus
  | NEW | LEAD_CAPTURED
deriving DecidableEq, Repr

inductive ConversationIntent
  | GREETING | NEW | LEAD_CAPTURED | LEAD_MODIFICATION | SCHEDULE_SITE_VISIT
deriving DecidableEq, Repr

structure ConversationState where
  leadStatus : LeadStatus
  lastIntent : Option ConversationIntent := none
  leadId : Option String := none
deriving DecidableEq, Repr

structure LeadAnalyzeLikeResponse where
  success : Bool
  data : Option LeadAnalysis := none
  error : Option String := none
deriving DecidableEq, Repr

structure MeasurementData where
  bhk : Option Int := none
  sqft : Option Int := none
  paintable_area : Option Int := none
  ceilings : Option Bool := none
  coats : Option Int := none
  putty_level : Option String := none
  dampness : Option Bool := none
  brand_preference : Option String := none
deriving DecidableEq, Repr

structure OrchestratorInput where
  text : String
  state : ConversationState
  analysis : LeadAnalyzeLikeResponse
  intent : Option LeadIntentResult := none
  measurements : Option MeasurementData := none
deriving DecidableEq, Repr

inductive DependencyType
  | PROJECT_REQUIRED | MEASUREMENT_REQUIRED | BHK_REQUIRED
  | SQFT_REQUIRED | PAINTABLE_AREA_REQUIRED
deriving DecidableEq, Repr

structure Dependency where
  type : DependencyType
  message : String
  action : Option String := none
deriving DecidableEq, Repr

structure QuoteRequirements where
  options : Nat
  timeline : Option String
  advance : Option Nat
  labour_and_material : Bool
deriving DecidableEq, Repr

/-- Arguments of the single tool call the orchestrator emits
(`generate_quote_options`); in TS an untyped `Record<string, unknown>`. -/
structure QuoteArguments where
  leadId : String
  jobType : Option String
  location : Option String
  requirements : QuoteRequirements
deriving DecidableEq, Repr

structure ToolCall where
  name : String
  arguments : QuoteArguments
deriving DecidableEq, Repr

structure OrchestratorOutput where
  reply : String
  newState : ConversationState
  toolCall : Option ToolCall := none
  dependencies : Option (List Dependency) := none
  missing : Option (List String) := none
deriving DecidableEq, Repr

/-! ### Greeting and yes/no detectors (`leadOrchestrator.ts`) -/

def greetingsList : List String :=
  ["hi", "hello", "hey", "namaste", "namaskar", "good morning", "good evening",
   "good afternoon", "राम राम", "jai shree krishna", "जय श्री कृष्ण"]

def detectGreeting (text : String) : Bool :=
  let normalized := jsToLower (jsTrim text)
  if normalized == "" then false
  else greetingsList.any fun g => normalized == g || jsStartsWith normalized (g ++ " ")

def yesWords : List String :=
  ["haan", "ha", "haa", "yes", "y", "जी", "हाँ", "हां", "कर दो", "करदो", "कर दीजिए"]

def detectYes (text : String) : Bool :=
  let raw := jsTrim text
  let cleaned := jsToLower (jsTrim (stripEdges raw))
  yesWords.any fun y => cleaned == y || jsIncludes raw y

def noWords : List String :=
  ["nahi", "nahin", "na", "no", "n", "मत", "मत करो", "मत कर", "नहीं"]

def detectNo (text : String) : Bool :=
  let raw := jsTrim text
  let cleaned := jsToLower (jsTrim (stripEdges raw))
  noWords.any fun n => cleaned == n || jsIncludes raw n

inductive Confirmation
  | YES | NO | AMBIGUOUS
deriving DecidableEq, Repr

/-- The yes/no classification exactly as applied by the orchestrator's
pending-confirmation rule: `detectYes` first, then `detectNo`, else ambiguous. -/
def resolveConfirmation (text : String) : Confirmation :=
  if detectYes text then .YES
  else if detectNo text then .NO
  else .AMBIGUOUS

/-! ### Missing-field resolver (`generateFollowupQuestions`) -/

structure FollowupResult where
  missing : List String
  questions : List String
deriving DecidableEq, Repr

def questionCustomerName : String := "Customer ka naam kya hai?"

def questionCustomerPhone : String :=
  "Customer ka mobile number share karoge? (+91 se start ho sakta hai)"

def questionLocation : String :=
  "Site ka exact location batao (area + street / landmark)."

def questionJobType : String :=
  "Painting ka exact kaam batao – kis area mein (room / poora ghar / office / exterior), kaunsi surface (wall, ceiling, door/window, metal, wood) aur purana paint ki condition kaisi hai?"

def questionUrgency : String :=
  "Ye kaam kab tak karwana hai? (aaj, kal, iss hafte, next week, etc.)"

/-- Does the optional classifier result carry `GENERATE_QUOTE_OPTIONS`?
(the `intent?.intent !== 'GENERATE_QUOTE_OPTIONS'` guards, negated). -/
def intentIsQuote : Option LeadIntentResult → Bool
  | none => false
  | some it => it.intent == .GENERATE_QUOTE_OPTIONS

def generateFollowupQuestions (analysis : LeadAnalysis)
    (intent : Option LeadIntentResult) : FollowupResult :=
  let nameMiss := !(intentIsQuote intent) && strFalsy analysis.customer.name
  let phoneMiss := !(intentIsQuote intent) && strFalsy analysis.customer.phone
  let locMiss := !(intentIsQuote intent) && strFalsy analysis.location_text
  let jobMiss := !(intentIsQuote intent) && (analysis.job_type == .unknown)
  let urgMiss := !(intentIsQuote intent) && (analysis.urgency == .unknown)
  { missing :=
      (if nameMiss then ["customer_name"] else []) ++
      (if phoneMiss then ["customer_phone"] else []) ++
      (if locMiss then ["location_text"] else []) ++
      (if jobMiss then ["job_type"] else []) ++
      (if urgMiss then ["urgency"] else [])
    questions :=
      (if nameMiss then [questionCustomerName] else []) ++
      (if phoneMiss then [questionCustomerPhone] else []) ++
      (if locMiss then [questionLocation] else []) ++
      (if jobMiss then [questionJobType] else []) ++
      (if urgMiss then [questionUrgency] else []) }

/-- The question asked for each missing-map key, used to state the
order/pairing property of the resolver. -/
def followupQuestionFor (key : String) : String :=
  if key == "customer_name" then questionCustomerName
  else if key == "customer_phone" then questionCustomerPhone
  else if key == "location_text" then questionLocation
  else if key == "job_type" then questionJobType
  else questionUrgency

def followupFieldOrder : List String :=
  ["customer_name", "customer_phone", "location_text", "job_type", "urgency"]

/-- Characterization of which keys the resolver marks missing
(JS-falsy string fields, `unknown` enum fields), in source order. -/
def missingFieldsOf (analysis : LeadAnalysis) : List String :=
  (if strFalsy analysis.customer.name then ["customer_name"] else []) ++
  (if strFalsy analysis.customer.phone then ["customer_phone"] else []) ++
  (if strFalsy analysis.location_text then ["location_text"] else []) ++
  (if analysis.job_type == .unknown then ["job_type"] else []) ++
  (if analysis.urgency == .unknown then ["urgency"] else [])

/-! ### Confirmation recap (`generateConfirmation`) -/

def generateConfirmation (analysis : LeadAnalysis) : Option String :=
  let summaryParts : List String :=
    (if strTruthy analysis.customer.name then
      ["Customer: " ++ analysis.customer.name.getD ""] else []) ++
    (if strTruthy analysis.location_text then
      ["Location: " ++ analysis.location_text.getD ""] else []) ++
    (if analysis.job_type != .unknown then
      ["Job: " ++ jobTypeStr analysis.job_type] else []) ++
    (if analysis.urgency != .unknown then
      ["Urgency: " ++ urgencyStr analysis.urgency] else [])
  let recap :=
    if 0 < summaryParts.length then
      " Quick recap – " ++ String.intercalate ", " summaryParts ++ "."
    else ""
  some ("Mere hisaab se painting ka kaam samajh aa gaya hai aur saari important details mil gayi hain."
    ++ recap ++ " Kya yeh sahi hai?")

/-! ### Quote dependency gate (inlined in `runLeadOrchestrator`, step 0,
`GENERATE_QUOTE_OPTIONS` branch) -/

def projectRequiredDep : Dependency :=
  { type := .PROJECT_REQUIRED
    message := "Quote generate karne ke liye pehle project select karna hoga."
    action := some "SELECT_PROJECT" }

def measurementRequiredDep : Dependency :=
  { type := .MEASUREMENT_REQUIRED
    message := "Quote generate karne ke liye measurement details chahiye (BHK, sqft, ya paintable area)."
    action := some "LOG_MEASUREMENT" }

def sqftRequiredDep : Dependency :=
  { type := .SQFT_REQUIRED
    message := "Quote generate karne ke liye sqft ya paintable area chahiye."
    action := some "LOG_MEASUREMENT" }

def quoteDependencyCheck (state : ConversationState)
    (measurements : Option MeasurementData) : List Dependency :=
  let projectDeps : List Dependency :=
    if strFalsy state.leadId then [projectRequiredDep] else []
  let hasBasicMeasurement : Bool :=
    match measurements with
    | none => false
    | some m => m.bhk.isSome || m.sqft.isSome || m.paintable_area.isSome
  let measurementDeps : List Dependency :=
    if !hasBasicMeasurement then [measurementRequiredDep]
    else if numFalsy (measurements.bind MeasurementData.sqft)
        && numFalsy (measurements.bind MeasurementData.paintable_area) then
      [sqftRequiredDep]
    else []
  projectDeps ++ measurementDeps

/-! ### Quote parameter extraction (regex scans over the lowercased text) -/

def splitWhile (p : Char → Bool) : List Char → List Char × List Char
  | [] => ([], [])
  | c :: cs =>
    if p c then
      let r := splitWhile p cs
      (c :: r.1, r.2)
    else ([], c :: cs)

def parseDigits (l : List Char) : Nat :=
  l.foldl (fun n c => n * 10 + (c.toNat - 48)) 0

/-- Leftmost-match regex scan: try the position matcher at every suffix. -/
def scanFirst {α : Type} (f : List Char → Option α) : List Char → Option α
  | [] => f []
  | c :: cs =>
    match f (c :: cs) with
    | some v => some v
    | none => scanFirst f cs

/-- `/(\d+)\s*options?/` at one position. -/
def matchOptionsAt (l : List Char) : Option Nat :=
  let d := splitWhile Char.isDigit l
  if d.1.isEmpty then none
  else
    let rest := (splitWhile jsWhitespaceChar d.2).2
    if "option".data.isPrefixOf rest then some (parseDigits d.1) else none

def matchOptions (s : String) : Option Nat := scanFirst matchOptionsAt s.data

/-- `days?|weeks?|months?`: the base word with a greedily taken optional `s`. -/
def matchWordS (w : String) (l : List Char) : Option (List Char) :=
  if w.data.isPrefixOf l then
    match l.drop w.data.length with
    | 's' :: _ => some (w.data ++ ['s'])
    | _ => some w.data
  else none

def matchUnitAt (l : List Char) : Option (List Char) :=
  (matchWordS "day" l).orElse fun _ =>
    (matchWordS "week" l).orElse fun _ => matchWordS "month" l

/-- The capture of `(\d+\s*(?:days?|weeks?|months?))` at one position. -/
def matchNumUnitAt (l : List Char) : Option String :=
  let d := splitWhile Char.isDigit l
  if d.1.isEmpty then none
  else
    let sp := splitWhile jsWhitespaceChar d.2
    match matchUnitAt sp.2 with
    | some u => some (String.mk (d.1 ++ sp.1 ++ u))
    | none => none

/-- `/timeline\s*(\d+\s*(?:days?|weeks?|months?))/` at one position. -/
def matchTimelineKeywordAt (l : List Char) : Option String :=
  if "timeline".data.isPrefixOf l then
    matchNumUnitAt ((splitWhile jsWhitespaceChar (l.drop 8)).2)
  else none

def matchTimelineKeyword (s : String) : Option String :=
  scanFirst matchTimelineKeywordAt s.data

def matchTimelineBare (s : String) : Option String :=
  scanFirst matchNumUnitAt s.data

/-- `(\d+)\s*%` at one position. -/
def matchPercentAfterDigits (l : List Char) : Option Nat :=
  let d := splitWhile Char.isDigit l
  if d.1.isEmpty then none
  else
    match (splitWhile jsWhitespaceChar d.2).2 with
    | '%' :: _ => some (parseDigits d.1)
    | _ => none

/-- `/(?:advance|advance\s*payment)\s*(\d+)\s*%/` at one position
(first alternative tried first, as the regex engine does). -/
def matchAdvanceLeadingAt (l : List Char) : Option Nat :=
  if "advance".data.isPrefixOf l then
    let afterAdv := l.drop 7
    match matchPercentAfterDigits ((splitWhile jsWhitespaceChar afterAdv).2) with
    | some n => some n
    | none =>
      let afterWs := (splitWhile jsWhitespaceChar afterAdv).2
      if "payment".data.isPrefixOf afterWs then
        matchPercentAfterDigits ((splitWhile jsWhitespaceChar (afterWs.drop 7)).2)
      else none
  else none

def matchAdvanceLeading (s : String) : Option Nat :=
  scanFirst matchAdvanceLeadingAt s.data

/-- `/(\d+)\s*%\s*(?:advance|advance\s*payment)/` at one position
(matching the first alternative `advance` suffices for acceptance). -/
def matchAdvanceTrailingAt (l : List Char) : Option Nat :=
  let d := splitWhile Char.isDigit l
  if d.1.isEmpty then none
  else
    match (splitWhile jsWhitespaceChar d.2).2 with
    | '%' :: rest =>
      if "advance".data.isPrefixOf ((splitWhile jsWhitespaceChar rest).2) then
        some (parseDigits d.1)
      else none
    | _ => none

def matchAdvanceTrailing (s : String) : Option Nat :=
  scanFirst matchAdvanceTrailingAt s.data

/-- Lines 326-356 of the orchestrator: requirement extraction from the raw
utterance (the text is lowercased, not trimmed, exactly as in the source). -/
def extractQuoteRequirements (text : String) : QuoteRequirements :=
  let normalizedText := jsToLower text
  let numOptions := (matchOptions normalizedText).getD 3
  let timeline :=
    (matchTimelineKeyword normalizedText).orElse fun _ =>
      matchTimelineBare normalizedText
  let advance :=
    (matchAdvanceLeading normalizedText).orElse fun _ =>
      matchAdvanceTrailing normalizedText
  let labourAndMaterial :=
    jsIncludes normalizedText "labour" &&
      (jsIncludes normalizedText "material" || jsIncludes normalizedText "material")
  { options := numOptions, timeline := timeline, advance := advance
    labour_and_material := labourAndMaterial }

/-! ### Turn orchestrator (`runLeadOrchestrator`) -/

def greetingReplyText : String :=
  "Namaste! Main aapka painting assistant hoon. Aap bata sakte ho kis type ka painting ka kaam chahiye (ghar, office, interior, exterior) aur location kaha hai?"

def greetingOutput (state : ConversationState) : OrchestratorOutput :=
  { reply := greetingReplyText
    newState := { state with lastIntent := some .GREETING } }

def generalQuestionOutput (state : ConversationState) : OrchestratorOutput :=
  { reply := "Ye ek general sawaal lag raha hai. Agar yeh kisi specific project ke baare mein hai, to please customer ka naam aur area (jaise HSR, Whitefield, JP Nagar) batao taaki sahi project pe baat ho sake."
    newState := { state with lastIntent := some .GREETING } }

/-- Step 0, `GENERATE_QUOTE_OPTIONS`: dependency gate, then either the
dependency reply or the `generate_quote_options` tool call. -/
def quoteOptionsBranch (input : OrchestratorInput) : OrchestratorOutput :=
  let dependencies := quoteDependencyCheck input.state input.measurements
  if 0 < dependencies.length then
    { reply := "Quote generate karne ke liye kuch details chahiye: "
        ++ String.intercalate " " (dependencies.map Dependency.message)
        ++ " Kripya pehle ye details provide karein."
      newState := { input.state with lastIntent := some .NEW }
      dependencies := some dependencies }
  else
    { reply := "Theek hai, main aapke liye quote options generate kar raha hoon. Thoda wait karein..."
      newState := { input.state with lastIntent := some .NEW }
      toolCall := some
        { name := "generate_quote_options"
          arguments :=
            { leadId := input.state.leadId.getD ""
              jobType := input.analysis.data.map fun d => jobTypeStr d.job_type
              location := input.analysis.data.bind fun d =>
                if strTruthy d.location_text then d.location_text else none
              requirements := extractQuoteRequirements input.text } } }

/-- Step 0, update/measurement intent without a bound lead. -/
def needsLeadOutput (it : LeadIntentResult) (state : ConversationState) :
    OrchestratorOutput :=
  let hintPart :=
    match it.lead_hint with
    | some h => if h == "" then "" else "Aap shayad \"" ++ h ++ "\" wale kaam ki baat kar rahe ho. "
    | none => ""
  let actionLabel := if it.intent == .LOG_MEASUREMENT then "measurement" else "update"
  { reply := hintPart ++ "Ye " ++ actionLabel
      ++ " kisi purane project ke liye lag raha hai. Please batao kis project ke liye – customer ka naam, area (HSR / Whitefield / JP Nagar) ya approximate date (jaise kal ka site visit) taaki main sahi project choose kar saku."
    newState := { state with lastIntent := some .NEW } }

def measurementNotedOutput (state : ConversationState) : OrchestratorOutput :=
  { reply := "Theek hai, maine measurement note kar liya hai. Agar kuch aur detail (colour, coats, area breakup) add karna ho to batao, ya phir estimate ke baare mein puch sakte ho."
    newState := { state with lastIntent := some .NEW } }

/-- Step 6 and step 7: site-visit guidance or the terminal fallback. -/
def scheduleOrFallback (input : OrchestratorInput) : OrchestratorOutput :=
  if input.state.lastIntent = some .SCHEDULE_SITE_VISIT
      ∧ input.state.leadStatus = .LEAD_CAPTURED then
    { reply := "Site visit ke liye ek clear date aur time batao (jaise: kal dupahar 3 baje, Sunday morning 10 baje)."
      newState := input.state }
  else
    { reply := "Mujhe painting ka kaam samajh aa gaya hai. Agar kuch aur specific chahiye to batao, warna hum site visit schedule kar sakte hain."
      newState := input.state }

/-- Steps 3-5: analysis failure, missing-field questions, or the recap
confirmation; falls through to `scheduleOrFallback`. -/
def leadAnalysisRules (input : OrchestratorInput) : OrchestratorOutput :=
  if input.analysis.success = false then
    { reply := input.analysis.error.getD
        "Lead analyze karte waqt kuch problem aayi. Thodi der baad phir se try karoge?"
      newState := input.state }
  else
    match input.analysis.data with
    | some d =>
      let fr := generateFollowupQuestions d input.intent
      if 0 < fr.missing.length then
        { reply :=
            if 0 < fr.questions.length then String.intercalate "\n" fr.questions
            else "Thoda aur detail share karo – customer ka naam, phone, location aur painting ka scope batao."
          newState := { input.state with leadStatus := .NEW, lastIntent := some .NEW }
          missing := some fr.missing }
      else if input.state.leadStatus = .NEW then
        match generateConfirmation d with
        | some c =>
          if c = "" then scheduleOrFallback input
          else
            { reply := c
              newState := { input.state with lastIntent := some .LEAD_CAPTURED } }
        | none => scheduleOrFallback input
      else scheduleOrFallback input
    | none => scheduleOrFallback input

def confirmYesReplyText : String :=
  "Theek hai, lead confirm ho gaya hai. Ab site visit schedule karte hain – aapko kaunse din aur kis time convenient hoga customer location par?"

/-- Step 2: the pending-confirmation rule, falling through to steps 3-7. -/
def confirmationAndRules (input : OrchestratorInput) (trimmed : String) :
    OrchestratorOutput :=
  if input.state.lastIntent = some .LEAD_CAPTURED
      ∧ input.state.leadStatus = .NEW then
    if detectYes trimmed then
      { reply := confirmYesReplyText
        newState := { input.state with
          leadStatus := .LEAD_CAPTURED, lastIntent := some .SCHEDULE_SITE_VISIT } }
    else if detectNo trimmed then
      { reply := "Theek hai, batao kya change karna hai – location, area, customer detail ya painting ka scope?"
        newState := { input.state with lastIntent := some .LEAD_MODIFICATION } }
    else leadAnalysisRules input
  else leadAnalysisRules input

/-- Steps 1-7: the rules that run when no classifier intent short-circuited. -/
def heuristicRules (input : OrchestratorInput) (trimmed : String) :
    OrchestratorOutput :=
  if detectGreeting trimmed then greetingOutput input.state
  else confirmationAndRules input trimmed

def runLeadOrchestrator (input : OrchestratorInput) : OrchestratorOutput :=
  let trimmed := jsTrim input.text
  match input.intent with
  | some it =>
    if it.intent = .GREETING then greetingOutput input.state
    else if it.intent = .GENERAL_QUESTION then generalQuestionOutput input.state
    else if it.intent = .GENERATE_QUOTE_OPTIONS then quoteOptionsBranch input
    else if (it.intent = .UPDATE_EXISTING_LEAD ∨ it.intent = .LOG_MEASUREMENT)
        ∧ strFalsy input.state.leadId = true then
      needsLeadOutput it input.state
    else if it.intent = .LOG_MEASUREMENT ∧ strTruthy input.state.leadId = true then
      measurementNotedOutput input.state
    else heuristicRules input trimmed
  | none => heuristicRules input trimmed

/-- One of step 0's early returns fires for this classifier result and state. -/
def intentShortCircuits (io : Option LeadIntentResult)
    (state : ConversationState) : Prop :=
  ∃ it, io = some it ∧
    (it.intent = .GREETING ∨ it.intent = .GENERAL_QUESTION
      ∨ it.intent = .GENERATE_QUOTE_OPTIONS
      ∨ ((it.intent = .UPDATE_EXISTING_LEAD ∨ it.intent = .LOG_MEASUREMENT)
          ∧ strFalsy state.leadId = true)
      ∨ (it.intent = .LOG_MEASUREMENT ∧ strTruthy state.leadId = true))

/-! ### Step-flow micro-orchestrator (`projectConversation.ts`) -/

inductive ProjectQuestionKey
  | work_location | rooms_count
deriving DecidableEq, Repr

structure ProjectQuestion where
  key : ProjectQuestionKey
  text : String
deriving DecidableEq, Repr

def projectQuestion0 : ProjectQuestion :=
  { key := .work_location
    text := "कृपया बताइए कि पेंटिंग का काम कहाँ हो रहा है? (जैसे: दो बी एच के फ्लैट, बंगला, ऑफिस, सोसाइटी का विंग आदि)" }

def projectQuestion1 : ProjectQuestion :=
  { key := .rooms_count
    text := "कितने कमरे पेंट करने हैं? (जैसे: दो कमरे, तीन कमरे, एक हॉल और दो बेडरूम आदि)" }

def PROJECT_FLOW : List ProjectQuestion := [projectQuestion0, projectQuestion1]

structure ProjectAnswers where
  work_location : Option String := none
  rooms_count : Option String := none
deriving DecidableEq, Repr

def setAnswer (a : ProjectAnswers) (k : ProjectQuestionKey) (v : String) :
    ProjectAnswers :=
  match k with
  | .work_location => { a with work_location := some v }
  | .rooms_count => { a with rooms_count := some v }

structure ProjectConversationState where
  step : Nat
  answers : ProjectAnswers
  waitingForAssignConfirm : Bool
deriving DecidableEq, Repr

structure ProjectConversationSavePayload where
  work_location : Option String
  rooms_count : Option String
  assign_resources : Bool
deriving DecidableEq, Repr

structure ProjectConversationResult where
  replyText : Option String
  savePayload : Option ProjectConversationSavePayload := none
deriving DecidableEq, Repr

def flowYesValues : List String :=
  ["कर दो", "करदो", "कर दीजिए", "हाँ कर दो", "haan kar do",
   "हाँ", "हां", "हा", "जी", "हाँ जी",
   "હા", "હાં", "હા જી", "જી",
   "ಹಾ", "ಹಾಂ",
   "haan", "ha", "haa", "han", "haana", "hān",
   "yes", "y", "ye", "ji"]

def flowNoValues : List String :=
  ["मत करो", "मत कर", "मत कीजिए",
   "रद्द", "रद", "rad", "cancel", "कैंसल",
   "नहीं", "नहि", "मत",
   "ના", "નહીં", "નહિ",
   "nahin", "nahi", "na", "no", "n", "mat"]

/-- The step-flow's yes check over the (already trimmed) message text.
`raw.length` counts UTF-16 code units in JS; all characters involved are in
the BMP, so it equals the codepoint count used here. -/
def flowIsYes (text : String) : Bool :=
  let raw := jsTrim text
  let cleaned := jsTrim (stripEdges raw)
  let normalized := jsToLower cleaned
  flowYesValues.contains normalized || flowYesValues.contains cleaned
    || flowYesValues.contains raw
    || (decide (raw.length ≤ 15) && jsIncludes raw "હા")

def flowIsNo (text : String) : Bool :=
  let raw := jsTrim text
  let cleaned := jsTrim (stripEdges raw)
  let normalized := jsToLower cleaned
  flowNoValues.contains normalized || flowNoValues.contains cleaned
    || flowNoValues.contains raw
    || (decide (raw.length ≤ 15)
        && (jsIncludes raw "ना" || jsIncludes raw "नहीं"
            || jsIncludes raw "ના" || jsIncludes raw "નહીં"))

/-- The YES/NO/AMBIGUOUS classification applied by the step-flow's final
assign-resources confirmation gate (`isYes` consulted first). -/
def flowResolve (text : String) : Confirmation :=
  if flowIsYes text then .YES
  else if flowIsNo text then .NO
  else .AMBIGUOUS

def assignReprompt : String :=
  "कृपया सिर्फ \"कर दो\" या \"मत करो\" में जवाब दें। क्या मैं 2 रिसोर्स इस काम के लिए असाइन कर दूँ?"

/-- `handleProjectConversation`, with the per-chat entry of the in-memory
state map passed and returned explicitly. -/
def handleProjectConversation (prior : Option ProjectConversationState)
    (rawText : Option String) :
    ProjectConversationResult × Option ProjectConversationState :=
  let text := jsTrim (rawText.getD "")
  if text = "" then ({ replyText := none }, prior)
  else if text = "/project" then
    ({ replyText := some projectQuestion0.text },
      some { step := 0, answers := {}, waitingForAssignConfirm := false })
  else
    match prior with
    | none => ({ replyText := none }, none)
    | some state =>
      if state.waitingForAssignConfirm then
        if flowIsYes text then
          ({ replyText := some "ठीक है, मैंने 2 रिसोर्स इस काम के लिए असाइन कर दिए हैं।"
             savePayload := some
               { work_location := state.answers.work_location
                 rooms_count := state.answers.rooms_count
                 assign_resources := true } }, none)
        else if flowIsNo text then
          ({ replyText := some "ठीक है, मैं अभी कोई रिसोर्स असाइन नहीं कर रहा हूँ।"
             savePayload := some
               { work_location := state.answers.work_location
                 rooms_count := state.answers.rooms_count
                 assign_resources := false } }, none)
        else ({ replyText := some assignReprompt }, some state)
      else
        match PROJECT_FLOW.get? state.step with
        | none => ({ replyText := none }, none)
        | some currentQuestion =>
          let answers := setAnswer state.answers currentQuestion.key text
          let step := state.step + 1
          if h : step < PROJECT_FLOW.length then
            ({ replyText := some (PROJECT_FLOW.get ⟨step, h⟩).text },
              some { state with step := step, answers := answers })
          else
            let rooms :=
              match answers.rooms_count with
              | some r => if r == "" then "कमरे" else r
              | none => "कमरे"
            ({ replyText := some ("ठीक है, आपने बताया कि यहाँ " ++ rooms
                ++ " पेंट करने हैं। हमारे पास 2 पेंटिंग रिसोर्स उपलब्ध हैं, क्या मैं इन्हें इस काम के लिए असाइन कर दूँ? कृपया जवाब में सिर्फ \"कर दो\" या \"मत करो\" बोलें।") },
              some { state with
                      step := step
                      answers := answers
                      waitingForAssignConfirm := true })

/-! ### Concrete sample inputs used by witnesses and counterexamples -/

/-- A fully-populated analysis record (no missing fields). -/
def fullAnalysis : LeadAnalysis :=
  { contractor_id := none
    raw_utterance := "Rahul ka ghar paint karna hai"
    customer := { name := some "Rahul", phone := some "9876543210" }
    location_text := some "HSR Layout"
    job_type := .painting
    scope_hint := { interior := none, exterior := none }
    urgency := .today
    preferred_language := .hi }

/-- An analysis record whose customer name is absent (`null`). -/
def analysisMissingName : LeadAnalysis :=
  { contractor_id := none
    raw_utterance := "naya kaam"
    customer := { name := none, phone := some "9876543210" }
    location_text := some "HSR Layout"
    job_type := .painting
    scope_hint := { interior := none, exterior := none }
    urgency := .today
    preferred_language := .hi }

/-- An analysis record whose customer name is the empty string:
JS-falsy but neither `null` nor `'unknown'`. -/
def emptyNameAnalysis : LeadAnalysis :=
  { contractor_id := none
    raw_utterance := "kaam"
    customer := { name := some "", phone := some "9876500000" }
    location_text := some "Whitefield"
    job_type := .painting
    scope_hint := { interior := none, exterior := none }
    urgency := .today
    preferred_language := .hi }

/-- A turn in which the state is already `LEAD_CAPTURED` and the fresh
analysis is missing the customer name. -/
def c1Input : OrchestratorInput :=
  { text := "naya kaam"
    state := { leadStatus := .LEAD_CAPTURED, lastIntent := some .SCHEDULE_SITE_VISIT }
    analysis := { success := true, data := some analysisMissingName } }

/-- A pending-confirmation turn whose text fires both detectors. -/
def c7Input : OrchestratorInput :=
  { text := "haan kar do"
    state := { leadStatus := .NEW, lastIntent := some .LEAD_CAPTURED }
    analysis := { success := false } }

/-- A pending-confirmation turn whose text fires neither detector. -/
def c7wInput : OrchestratorInput :=
  { text := "bas theek"
    state := { leadStatus := .NEW, lastIntent := some .LEAD_CAPTURED }
    analysis := { success := false } }

/-- A satisfied-gate quote request carrying options/timeline/advance. -/
def c6Input : OrchestratorInput :=
  { text := "3 options, timeline 5 days, advance 30%"
    state := { leadStatus := .NEW, leadId := some "x" }
    analysis := { success := true }
    intent := some { intent := .GENERATE_QUOTE_OPTIONS }
    measurements := some { sqft := some 800 } }

/-- The analysis-missing branch (step 4) fired: the analysis succeeded with
data whose follow-up resolver reported a non-empty missing map. -/
def missingBranchFired (input : OrchestratorInput) : Prop :=
  input.analysis.success = true ∧
    ∃ d, input.analysis.data = some d ∧
      (generateFollowupQuestions d input.intent).missing ≠ []

/-! ### Helper lemmas -/

theorem append_ne_empty_left (s t : String) (h : s ≠ "") : s ++ t ≠ "" := by
  obtain ⟨ls⟩ := s
  obtain ⟨lt⟩ := t
  intro he
  apply h
  have h2 : ls ++ lt = ([] : List Char) := congrArg String.data he
  have h3 := List.append_eq_nil.mp h2
  rw [h3.1]

theorem generateConfirmation_shape (d : LeadAnalysis) :
    ∃ c, generateConfirmation d = some c ∧ c ≠ "" := by
  refine ⟨_, rfl, ?_⟩
  exact append_ne_empty_left _ _ (append_ne_empty_left _ _ (by decide))

theorem scheduleOrFallback_newState (input : OrchestratorInput) :
    (scheduleOrFallback input).newState = input.state := by
  unfold scheduleOrFallback
  split <;> rfl

theorem leadAnalysisRules_leadId (input : OrchestratorInput) :
    (leadAnalysisRules input).newState.leadId = input.state.leadId := by
  unfold leadAnalysisRules
  try dsimp only
  repeat' split
  all_goals first
    | rfl
    | simp [scheduleOrFallback_newState]

theorem confirmationAndRules_leadId (input : OrchestratorInput) (t : String) :
    (confirmationAndRules input t).newState.leadId = input.state.leadId := by
  unfold confirmationAndRules
  repeat' split
  all_goals simp [leadAnalysisRules_leadId]

theorem heuristicRules_leadId (input : OrchestratorInput) (t : String) :
    (heuristicRules input t).newState.leadId = input.state.leadId := by
  unfold heuristicRules
  split
  · simp [greetingOutput]
  · simp [confirmationAndRules_leadId]

theorem quoteOptionsBranch_newState (input : OrchestratorInput) :
    (quoteOptionsBranch input).newState
      = { input.state with lastIntent := some ConversationIntent.NEW } := by
  unfold quoteOptionsBranch
  try dsimp only
  split <;> rfl

/-- C10: no branch of the orchestrator rebinds or clears `leadId`. -/
theorem C10_leadId_frame (input : OrchestratorInput) :
    (runLeadOrchestrator input).newState.leadId = input.state.leadId := by
  unfold runLeadOrchestrator
  dsimp only
  split
  · repeat' split
    all_goals
      simp [greetingOutput, generalQuestionOutput, quoteOptionsBranch_newState,
        needsLeadOutput, measurementNotedOutput, heuristicRules_leadId]
  · simp [heuristicRules_leadId]

/-- C9: the `/project` start command always resets the per-chat state to
step 0 with empty answers and replies with the first question, whatever the
prior state was. -/
theorem C9_start_resets (prior : Option ProjectConversationState) :
    handleProjectConversation prior (some "/project")
      = ({ replyText := some projectQuestion0.text, savePayload := none },
          some { step := 0, answers := {}, waitingForAssignConfirm := false }) := by
  rfl

theorem leadAnalysisRules_status (input : OrchestratorInput) :
    (leadAnalysisRules input).newState.leadStatus = input.state.leadStatus
    ∨ ((leadAnalysisRules input).newState.leadStatus = LeadStatus.NEW
        ∧ missingBranchFired input) := by
  unfold leadAnalysisRules
  try dsimp only
  by_cases hsucc : input.analysis.success = false
  · rw [if_pos hsucc]; left; rfl
  · rw [if_neg hsucc]
    have hs : input.analysis.success = true := by
      cases h : input.analysis.success with
      | false => exact absurd h hsucc
      | true => rfl
    cases hd : input.analysis.data with
    | none => left; rw [scheduleOrFallback_newState]
    | some d =>
      dsimp only
      by_cases hm : 0 < (generateFollowupQuestions d input.intent).missing.length
      · rw [if_pos hm]
        right
        exact ⟨rfl, hs, d, hd, List.length_pos.mp hm⟩
      · rw [if_neg hm]
        by_cases hN : input.state.leadStatus = LeadStatus.NEW
        · rw [if_pos hN]
          obtain ⟨c, hc, hne⟩ := generateConfirmation_shape d
          rw [hc]
          dsimp only
          rw [if_neg hne]
          left; rfl
        · rw [if_neg hN]
          left; rw [scheduleOrFallback_newState]

theorem confirmationAndRules_status (input : OrchestratorInput) (t : String) :
    (confirmationAndRules input t).newState.leadStatus = input.state.leadStatus
    ∨ ((confirmationAndRules input t).newState.leadStatus = LeadStatus.LEAD_CAPTURED
        ∧ input.state.leadStatus = LeadStatus.NEW)
    ∨ ((confirmationAndRules input t).newState.leadStatus = LeadStatus.NEW
        ∧ missingBranchFired input) := by
  unfold confirmationAndRules
  split
  next hpend =>
    split
    · right; left; exact ⟨rfl, hpend.2⟩
    · split
      · left; rfl
      · rcases leadAnalysisRules_status input with h | h
        · exact Or.inl h
        · exact Or.inr (Or.inr h)
  next =>
    rcases leadAnalysisRules_status input with h | h
    · exact Or.inl h
    · exact Or.inr (Or.inr h)

theorem heuristicRules_status (input : OrchestratorInput) (t : String) :
    (heuristicRules input t).newState.leadStatus = input.state.leadStatus
    ∨ ((heuristicRules input t).newState.leadStatus = LeadStatus.LEAD_CAPTURED
        ∧ input.state.leadStatus = LeadStatus.NEW)
    ∨ ((heuristicRules input t).newState.leadStatus = LeadStatus.NEW
        ∧ missingBranchFired input) := by
  unfold heuristicRules
  split
  · left; rfl
  · exact confirmationAndRules_status input t

theorem runLeadOrchestrator_status (input : OrchestratorInput) :
    (runLeadOrchestrator input).newState.leadStatus = input.state.leadStatus
    ∨ ((runLeadOrchestrator input).newState.leadStatus = LeadStatus.LEAD_CAPTURED
        ∧ input.state.leadStatus = LeadStatus.NEW)
    ∨ ((runLeadOrchestrator input).newState.leadStatus = LeadStatus.NEW
        ∧ missingBranchFired input) := by
  unfold runLeadOrchestrator
  try dsimp only
  split
  · split
    · left; rfl
    · split
      · left; rfl
      · split
        · left; rw [quoteOptionsBranch_newState]
        · split
          · left; rfl
          · split
            · left; rfl
            · exact heuristicRules_status input _
  · exact heuristicRules_status input _

/-- C1 (counterexample): with a `LEAD_CAPTURED` state and a fresh analysis
that is missing the customer name, the orchestrator's missing-fields rule
resets `leadStatus` to `NEW` — the status does revert. -/
theorem C1_counterexample :
    c1Input.state.leadStatus = LeadStatus.LEAD_CAPTURED
    ∧ (runLeadOrchestrator c1Input).newState.leadStatus = LeadStatus.NEW := by
  decide

/-- C1 (amended): `leadStatus` can only move from `LEAD_CAPTURED` back to
`NEW` through the missing-fields rule, i.e. when the analysis succeeded with
data whose follow-up resolver reported missing fields; no other branch of
`runLeadOrchestrator` reverts the status. -/
theorem C1_amended_leadStatus (input : OrchestratorInput)
    (h1 : input.state.leadStatus = LeadStatus.LEAD_CAPTURED)
    (h2 : (runLeadOrchestrator input).newState.leadStatus = LeadStatus.NEW) :
    missingBranchFired input := by
  rcases runLeadOrchestrator_status input with h | h | h
  · rw [h2, h1] at h
    exact LeadStatus.noConfusion h
  · exact LeadStatus.noConfusion (h1.symm.trans h.2)
  · exact h.2

/-- C1 (witness): the amended theorem applies to the concrete reverting turn. -/
theorem C1_amended_witness : missingBranchFired c1Input :=
  C1_amended_leadStatus c1Input (by decide) (by decide)

/-- C2 (counterexample): `resolve("bas theek hai")` is YES, not AMBIGUOUS —
the raw string contains the curated keyword `"ha"` (inside `"hai"`) and the
substring fallback of `detectYes` is not conditioned on any length cap. -/
theorem C2_counterexample :
    resolveConfirmation "bas theek hai" = Confirmation.YES
    ∧ resolveConfirmation "bas theek hai" ≠ Confirmation.AMBIGUOUS := by
  decide

/-- C2 (amended): the resolver maps `"हाँ"` to YES, `"नहीं"` to NO,
`"कर दो।"` to YES (punctuation stripped), `"haan kar do"` to YES, and also
`"bas theek hai"` to YES, because substring containment over the raw input
is applied as an unconditional disjunct of the keyword check (no 15-character
cap exists in `detectYes`/`detectNo`), as the last conjunct shows on a
31-character input. -/
theorem C2_amended :
    resolveConfirmation "हाँ" = Confirmation.YES
    ∧ resolveConfirmation "नहीं" = Confirmation.NO
    ∧ resolveConfirmation "कर दो।" = Confirmation.YES
    ∧ resolveConfirmation "haan kar do" = Confirmation.YES
    ∧ resolveConfirmation "bas theek hai" = Confirmation.YES
    ∧ detectYes "mujhe lagta hai ki haan theek hai" = true := by
  decide

/-- C3: the quote dependency gate returns exactly
`[PROJECT_REQUIRED, MEASUREMENT_REQUIRED]` for an unbound lead with no
measurements, exactly `[SQFT_REQUIRED]` for a bound lead with only `bhk`,
`[]` for a bound lead with `sqft`, and its result is always ordered
`PROJECT_REQUIRED` before `MEASUREMENT_REQUIRED` before `SQFT_REQUIRED`. -/
theorem C3_quote_gate :
    quoteDependencyCheck { leadStatus := .NEW } none
      = [projectRequiredDep, measurementRequiredDep]
    ∧ quoteDependencyCheck { leadStatus := .NEW, leadId := some "x" }
        (some { bhk := some 2 }) = [sqftRequiredDep]
    ∧ quoteDependencyCheck { leadStatus := .NEW, leadId := some "x" }
        (some { sqft := some 800 }) = []
    ∧ ∀ (state : ConversationState) (ms : Option MeasurementData),
        ((quoteDependencyCheck state ms).map Dependency.type).Sublist
          [DependencyType.PROJECT_REQUIRED, DependencyType.MEASUREMENT_REQUIRED,
            DependencyType.SQFT_REQUIRED] := by
  refine ⟨by decide, by decide, by decide, ?_⟩
  intro state ms
  unfold quoteDependencyCheck
  try dsimp only
  split <;> (split <;> try split) <;>
    simp [projectRequiredDep, measurementRequiredDep, sqftRequiredDep]

/-- C7 (counterexample): on `"haan kar do"` both detectors fire, yet the
pending-confirmation rule takes the YES branch and changes state. -/
theorem C7_counterexample :
    detectYes "haan kar do" = true
    ∧ detectNo "haan kar do" = true
    ∧ resolveConfirmation "haan kar do" ≠ Confirmation.AMBIGUOUS
    ∧ (runLeadOrchestrator c7Input).newState.leadStatus = LeadStatus.LEAD_CAPTURED
    ∧ (runLeadOrchestrator c7Input).newState.lastIntent
        = some ConversationIntent.SCHEDULE_SITE_VISIT := by
  decide

/-- C8 (counterexample): the two yes/no classifiers are not the same
function — on `"ji"` the step-flow gate answers YES while the orchestrator's
resolver is AMBIGUOUS. -/
theorem C8_counterexample :
    resolveConfirmation "ji" ≠ flowResolve "ji"
    ∧ resolveConfirmation "ji" = Confirmation.AMBIGUOUS
    ∧ flowResolve "ji" = Confirmation.YES := by
  decide

/-- C8 (amended): the orchestrator and the step-flow use two separately
implemented classifiers with different keyword lists; they agree on the
canonical confirmation inputs but not on every raw text. -/
theorem C8_amended :
    resolveConfirmation "हाँ" = flowResolve "हाँ"
    ∧ resolveConfirmation "नहीं" = flowResolve "नहीं"
    ∧ resolveConfirmation "कर दो।" = flowResolve "कर दो।"
    ∧ resolveConfirmation "haan" = flowResolve "haan"
    ∧ resolveConfirmation "no" = flowResolve "no"
    ∧ resolveConfirmation "मत करो" = flowResolve "मत करो" := by
  decide

/-- C5 (counterexample): with `customer.name = ""` — a value that is neither
`null` nor `'unknown'` — the resolver still marks `customer_name` missing and
appends its question, because the source tests JS truthiness. -/
theorem C5_counterexample :
    emptyNameAnalysis.customer.name = some ""
    ∧ emptyNameAnalysis.customer.name ≠ none
    ∧ (generateFollowupQuestions emptyNameAnalysis none).missing = ["customer_name"]
    ∧ (generateFollowupQuestions emptyNameAnalysis none).questions
        = [questionCustomerName] := by
  decide

set_option maxRecDepth 4000 in
/-- C5 (amended): for `GENERATE_QUOTE_OPTIONS` the missing map is empty
regardless of the analysis; otherwise each check fires exactly when its
field is JS-falsy (`null` or empty string) or the `unknown` enum value; the
questions are the missing keys' questions in the fixed order name, phone,
location, job type, urgency. -/
theorem C5_amended (a : LeadAnalysis) (io : Option LeadIntentResult) :
    (generateFollowupQuestions a io).questions
      = (generateFollowupQuestions a io).missing.map followupQuestionFor
    ∧ ((generateFollowupQuestions a io).missing).Sublist followupFieldOrder
    ∧ (generateFollowupQuestions a io).missing
      = (if intentIsQuote io then [] else missingFieldsOf a) := by
  unfold generateFollowupQuestions missingFieldsOf
  try dsimp only
  cases hq : intentIsQuote io <;>
    cases h1 : strFalsy a.customer.name <;>
    cases h2 : strFalsy a.customer.phone <;>
    cases h3 : strFalsy a.location_text <;>
    cases h4 : a.job_type == JobType.unknown <;>
    cases h5 : a.urgency == Urgency.unknown <;>
    decide

/-- C6: with the gate satisfied, the utterance
`"3 options, timeline 5 days, advance 30%"` produces the
`generate_quote_options` tool call with `{options:3, timeline:"5 days",
advance:30}`; and whenever the `N options` scan finds no match, the options
count defaults to 3. -/
theorem C6_quote_params :
    (runLeadOrchestrator c6Input).toolCall = some
      { name := "generate_quote_options"
        arguments :=
          { leadId := "x", jobType := none, location := none
            requirements :=
              { options := 3, timeline := some "5 days", advance := some 30
                labour_and_material := false } } }
    ∧ ∀ u : String, matchOptions (jsToLower u) = none →
        (extractQuoteRequirements u).options = 3 := by
  constructor
  · decide
  · intro u hu
    unfold extractQuoteRequirements
    try dsimp only
    rw [hu]
    rfl

/-- C6 (witness): the default applies to an utterance with no options count. -/
theorem C6_quote_params_witness :
    (extractQuoteRequirements "quote banao bhai").options = 3 :=
  C6_quote_params.2 "quote banao bhai" (by decide)

/-- C7 (amended): in the pending-confirmation state the two detectors are
evaluated on the same trimmed text, but combined with yes-precedence: when
neither fires the result is AMBIGUOUS and the rule makes no state change,
falling through to the analysis rules (steps 3-7); when both fire the
yes-branch wins — the result is YES and the state advances. -/
theorem C7_amended (input : OrchestratorInput)
    (hP : input.state.lastIntent = some ConversationIntent.LEAD_CAPTURED)
    (hS : input.state.leadStatus = LeadStatus.NEW)
    (hI : input.intent = none)
    (hG : detectGreeting (jsTrim input.text) = false) :
    (detectYes (jsTrim input.text) = false → detectNo (jsTrim input.text) = false →
      resolveConfirmation (jsTrim input.text) = Confirmation.AMBIGUOUS
      ∧ runLeadOrchestrator input = leadAnalysisRules input)
    ∧ (detectYes (jsTrim input.text) = true → detectNo (jsTrim input.text) = true →
      resolveConfirmation (jsTrim input.text) = Confirmation.YES
      ∧ (runLeadOrchestrator input).newState.leadStatus = LeadStatus.LEAD_CAPTURED
      ∧ (runLeadOrchestrator input).newState.lastIntent
          = some ConversationIntent.SCHEDULE_SITE_VISIT) := by
  have hrun : runLeadOrchestrator input
      = heuristicRules input (jsTrim input.text) := by
    unfold runLeadOrchestrator
    rw [hI]
  have hheu : heuristicRules input (jsTrim input.text)
      = confirmationAndRules input (jsTrim input.text) := by
    unfold heuristicRules
    simp [hG]
  constructor
  · intro hY hN
    constructor
    · unfold resolveConfirmation
      rw [hY, hN]
      simp
    · rw [hrun, hheu]
      unfold confirmationAndRules
      rw [if_pos ⟨hP, hS⟩, hY, hN]
      simp
  · intro hY hN
    have hfull : runLeadOrchestrator input
        = { reply := confirmYesReplyText
            newState := { input.state with
              leadStatus := LeadStatus.LEAD_CAPTURED
              lastIntent := some ConversationIntent.SCHEDULE_SITE_VISIT } } := by
      rw [hrun, hheu]
      unfold confirmationAndRules
      rw [if_pos ⟨hP, hS⟩, hY]
      simp
    refine ⟨?_, ?_, ?_⟩
    · unfold resolveConfirmation
      rw [hY]
      simp
    · rw [hfull]
    · rw [hfull]

/-- C7 (witness): the amended theorem applied at the neither-fires input
`"bas theek"` in the pending-confirmation state. -/
theorem C7_amended_witness :
    resolveConfirmation (jsTrim c7wInput.text) = Confirmation.AMBIGUOUS
    ∧ runLeadOrchestrator c7wInput = leadAnalysisRules c7wInput :=
  (C7_amended c7wInput rfl rfl rfl (by decide)).1 (by decide) (by decide)

theorem runLeadOrchestrator_no_shortcircuit (input : OrchestratorInput)
    (hSC : ¬ intentShortCircuits input.intent input.state) :
    runLeadOrchestrator input = heuristicRules input (jsTrim input.text) := by
  cases hio : input.intent with
  | none =>
    unfold runLeadOrchestrator
    rw [hio]
  | some it =>
    have hdis := fun h => hSC ⟨it, hio, h⟩
    unfold runLeadOrchestrator
    rw [hio]
    try dsimp only
    split
    · next h => exact absurd (Or.inl h) hdis
    · split
      · next h => exact absurd (Or.inr (Or.inl h)) hdis
      · split
        · next h => exact absurd (Or.inr (Or.inr (Or.inl h))) hdis
        · split
          · next h => exact absurd (Or.inr (Or.inr (Or.inr (Or.inl h)))) hdis
          · split
            · next h => exact absurd (Or.inr (Or.inr (Or.inr (Or.inr h)))) hdis
            · rfl

theorem heuristicRules_no_greeting (input : OrchestratorInput) (t : String)
    (hG : detectGreeting t = false) :
    heuristicRules input t = confirmationAndRules input t := by
  unfold heuristicRules
  simp [hG]

theorem confirmationAndRules_skip (input : OrchestratorInput) (t : String)
    (h : ¬(input.state.lastIntent = some ConversationIntent.LEAD_CAPTURED
        ∧ input.state.leadStatus = LeadStatus.NEW)) :
    confirmationAndRules input t = leadAnalysisRules input := by
  unfold confirmationAndRules
  rw [if_neg h]

theorem confirmationAndRules_yes (input : OrchestratorInput) (t : String)
    (hpend : input.state.lastIntent = some ConversationIntent.LEAD_CAPTURED
      ∧ input.state.leadStatus = LeadStatus.NEW)
    (hY : detectYes t = true) :
    confirmationAndRules input t
      = { reply := confirmYesReplyText
          newState := { input.state with
            leadStatus := LeadStatus.LEAD_CAPTURED
            lastIntent := some ConversationIntent.SCHEDULE_SITE_VISIT } } := by
  unfold confirmationAndRules
  rw [if_pos hpend, hY]
  simp

theorem leadAnalysisRules_confirm (input : OrchestratorInput) (d : LeadAnalysis)
    (hsucc : input.analysis.success = true)
    (hdata : input.analysis.data = some d)
    (hM : (generateFollowupQuestions d input.intent).missing = [])
    (hN : input.state.leadStatus = LeadStatus.NEW) :
    leadAnalysisRules input
      = { reply := (generateConfirmation d).getD ""
          newState := { input.state with
            lastIntent := some ConversationIntent.LEAD_CAPTURED } } := by
  have hns : ¬(input.analysis.success = false) := by
    rw [hsucc]
    exact fun h => Bool.noConfusion h
  unfold leadAnalysisRules
  rw [if_neg hns, hdata]
  try dsimp only
  rw [hM]
  rw [if_neg (by simp : ¬(0 < ([] : List String).length))]
  rw [if_pos hN]
  obtain ⟨c, hc, hne⟩ := generateConfirmation_shape d
  rw [hc]
  try dsimp only
  rw [if_neg hne]
  rfl

/-- C4: from a fresh `NEW` state, a successful analysis with no missing
fields and no short-circuiting intent yields the recap confirmation with
`lastIntent = LEAD_CAPTURED`; a second turn saying `"haan"` on that state
(whatever analysis is supplied) replies asking for the site-visit date/time
with `leadStatus = LEAD_CAPTURED` and `lastIntent = SCHEDULE_SITE_VISIT`. -/
theorem C4_end_to_end (text1 : String) (lid : Option String)
    (d : LeadAnalysis) (io : Option LeadIntentResult) (ms : Option MeasurementData)
    (hSC : ¬ intentShortCircuits io
      { leadStatus := LeadStatus.NEW, lastIntent := none, leadId := lid })
    (hG : detectGreeting (jsTrim text1) = false)
    (hM : (generateFollowupQuestions d io).missing = []) :
    runLeadOrchestrator
        { text := text1
          state := { leadStatus := LeadStatus.NEW, lastIntent := none, leadId := lid }
          analysis := { success := true, data := some d }
          intent := io
          measurements := ms }
      = { reply := (generateConfirmation d).getD ""
          newState :=
            { leadStatus := LeadStatus.NEW
              lastIntent := some ConversationIntent.LEAD_CAPTURED
              leadId := lid } }
    ∧ ∀ (analysis2 : LeadAnalyzeLikeResponse) (ms2 : Option MeasurementData),
        runLeadOrchestrator
            { text := "haan"
              state :=
                { leadStatus := LeadStatus.NEW
                  lastIntent := some ConversationIntent.LEAD_CAPTURED
                  leadId := lid }
              analysis := analysis2
              intent := none
              measurements := ms2 }
          = { reply := confirmYesReplyText
              newState :=
                { leadStatus := LeadStatus.LEAD_CAPTURED
                  lastIntent := some ConversationIntent.SCHEDULE_SITE_VISIT
                  leadId := lid } } := by
  constructor
  · have e1 := runLeadOrchestrator_no_shortcircuit
      { text := text1
        state := { leadStatus := LeadStatus.NEW, lastIntent := none, leadId := lid }
        analysis := { success := true, data := some d }
        intent := io
        measurements := ms } hSC
    have e2 := heuristicRules_no_greeting
      { text := text1
        state := { leadStatus := LeadStatus.NEW, lastIntent := none, leadId := lid }
        analysis := { success := true, data := some d }
        intent := io
        measurements := ms } (jsTrim text1) hG
    have e3 := confirmationAndRules_skip
      { text := text1
        state := { leadStatus := LeadStatus.NEW, lastIntent := none, leadId := lid }
        analysis := { success := true, data := some d }
        intent := io
        measurements := ms } (jsTrim text1) (by simp)
    have e4 := leadAnalysisRules_confirm
      { text := text1
        state := { leadStatus := LeadStatus.NEW, lastIntent := none, leadId := lid }
        analysis := { success := true, data := some d }
        intent := io
        measurements := ms } d rfl rfl hM rfl
    exact e1.trans (e2.trans (e3.trans e4))
  · intro analysis2 ms2
    have e1 := runLeadOrchestrator_no_shortcircuit
      { text := "haan"
        state := { leadStatus := LeadStatus.NEW
                   lastIntent := some ConversationIntent.LEAD_CAPTURED
                   leadId := lid }
        analysis := analysis2
        intent := none
        measurements := ms2 }
      (by rintro ⟨it, hit, -⟩; exact Option.noConfusion hit)
    have e2 := heuristicRules_no_greeting
      { text := "haan"
        state := { leadStatus := LeadStatus.NEW
                   lastIntent := some ConversationIntent.LEAD_CAPTURED
                   leadId := lid }
        analysis := analysis2
        intent := none
        measurements := ms2 } (jsTrim "haan") (by decide)
    have e3 := confirmationAndRules_yes
      { text := "haan"
        state := { leadStatus := LeadStatus.NEW
                   lastIntent := some ConversationIntent.LEAD_CAPTURED
                   leadId := lid }
        analysis := analysis2
        intent := none
        measurements := ms2 } (jsTrim "haan") ⟨rfl, rfl⟩ (by decide)
    exact e1.trans (e2.trans e3)

/-- C4 (witness): the scenario theorem applied to a concrete first turn. -/
theorem C4_end_to_end_witness :
    (runLeadOrchestrator
      { text := "Rahul ka ghar paint karna hai"
        state := { leadStatus := LeadStatus.NEW, lastIntent := none, leadId := none }
        analysis := { success := true, data := some fullAnalysis }
        intent := none
        measurements := none }).newState.lastIntent
      = some ConversationIntent.LEAD_CAPTURED := by
  have h := C4_end_to_end "Rahul ka ghar paint karna hai" none fullAnalysis none none
    (by rintro ⟨it, hit, -⟩; exact Option.noConfusion hit) (by decide) (by decide)
  rw [h.1]
